import Mathlib

/-!
# Verification of the Zed Zig extension (`src/zig.rs`)

Shallow embedding of the extension's two logic centers:

* `language_server_binary` — resolution/caching/download of the `zls`
  language-server binary.  Host collaborators (settings lookup, `which`,
  filesystem stats, GitHub release lookup, download, chmod, readdir) are
  modelled as fields of an `Env` record supplying their outcomes, and every
  observable side effect the function performs is recorded in an ordered
  `Effect` trace returned alongside the result.

* `dap_locator_create_scenario` / `run_dap_locator` — translation of a build
  task into a debug scenario / launch request.  The only effectful
  collaborators here are `current_platform()` and `std::env::current_dir()`,
  modelled by a `DapEnv` record.  The Rust code calls `.unwrap()` on
  `get_test_exe_path()`; a failing unwrap is a process abort, modelled by the
  `PanicOr.panicked` outcome.
-/

set_option autoImplicit false

namespace ZigExt

/-- `zed::Os`. -/
inductive Os
  | mac
  | linux
  | windows
  deriving DecidableEq, Repr

/-- `zed::Architecture`. -/
inductive Arch
  | aarch64
  | x86
  | x8664
  deriving DecidableEq, Repr

/-- Result of a computation that may abort the process (`.unwrap()` on `None`). -/
inductive PanicOr (α : Type)
  | panicked
  | ok (a : α)
  deriving DecidableEq, Repr

/-- `zed::TaskTemplate` (the fields the source reads). -/
structure TaskTemplate where
  label : String
  command : String
  args : List String
  env : List (String × String)
  cwd : Option String
  deriving DecidableEq, Repr

/-- `zed::BuildTaskTemplate`. -/
structure BuildTaskTemplate where
  label : String
  command : String
  args : List String
  env : List (String × String)
  cwd : Option String
  deriving DecidableEq, Repr

/-- `zed::BuildTaskDefinitionTemplatePayload`. -/
structure BuildTaskDefinitionTemplatePayload where
  template : BuildTaskTemplate
  locatorName : Option String
  deriving DecidableEq, Repr

/-- `zed::BuildTaskDefinition` (the source only builds the `Template` variant). -/
inductive BuildTaskDefinition
  | byName (name : String)
  | template (payload : BuildTaskDefinitionTemplatePayload)
  deriving DecidableEq, Repr

/-- `zed::DebugScenario`; `tcp_connection` is always `None` in the source, its
payload type is irrelevant and modelled as `Unit`. `config` is the serialized
JSON string. -/
structure DebugScenario where
  adapter : String
  label : String
  config : String
  tcpConnection : Option Unit
  build : Option BuildTaskDefinition
  deriving DecidableEq, Repr

/-- `zed::LaunchRequest`. -/
structure LaunchRequest where
  program : String
  cwd : Option String
  args : List String
  envs : List (String × String)
  deriving DecidableEq, Repr

/-- `zed::DebugRequest` (the source only builds the `Launch` variant). -/
inductive DebugRequest
  | launch (r : LaunchRequest)
  | attach (processId : Nat)
  deriving DecidableEq, Repr

/-- Environment for the DAP locator operations: the current platform and the
outcome of `std::env::current_dir()` (`none` = the working directory cannot be
determined). -/
structure DapEnv where
  os : Os
  currentDir : Option String
  deriving Repr

/-- `ZIG_TEST_EXE_NAME`. -/
def ZIG_TEST_EXE_NAME : String := "zig_test"

/-- `std::path::PathBuf::join` for string paths as used by the source
(appends a `/` separator unless one is already present). -/
def pathJoin (base child : String) : String :=
  if base = "" then child
  else if base.data.getLast? = some '/' then base ++ child
  else base ++ "/" ++ child

/-- `get_test_exe_path`: `std::env::current_dir().ok()?` joined with
`ZIG_TEST_EXE_NAME`. -/
def get_test_exe_path (denv : DapEnv) : Option String :=
  match denv.currentDir with
  | none => none
  | some d => some (pathJoin d ZIG_TEST_EXE_NAME)

/-- Split a character list at `/` separators (the pieces, in order). -/
def splitPathAux : List Char → List Char → List String
  | cur, [] => [String.mk cur.reverse]
  | cur, c :: rest =>
    if c = '/' then String.mk cur.reverse :: splitPathAux [] rest
    else splitPathAux (c :: cur) rest

/-- The `/`-separated pieces of a path string. -/
def splitPath (p : String) : List String :=
  splitPathAux [] p.data

/-- `std::path::Path::file_name` for the path strings handled here: the last
component after splitting on `/`, with empty and `.` components dropped;
`none` when there is no component left or the path terminates in `..`. -/
def pathFileName (p : String) : Option String :=
  let parts := (splitPath p).filter (fun s => s ≠ "" ∧ s ≠ ".")
  match parts.getLast? with
  | none => none
  | some s => if s = ".." then none else some s

/-- `get_project_name`: the file name of the task's working directory. -/
def get_project_name (task : TaskTemplate) : Option String :=
  match task.cwd with
  | none => none
  | some cwd => pathFileName cwd

/-- `ZigExtension::dap_locator_create_scenario`.  `serde_json::to_string` of
`Value::Null` always succeeds and produces `"null"`, so the `let Ok(config)`
fallback branch is unreachable and the config is the literal string `null`. -/
def dap_locator_create_scenario (denv : DapEnv) (locator_name : String)
    (build_task : TaskTemplate) (resolved_label : String)
    (debug_adapter_name : String) : PanicOr (Option DebugScenario) :=
  if build_task.command ≠ "zig" then .ok none
  else
    let cwd := build_task.cwd
    let env := build_task.env
    let template? : PanicOr (Option BuildTaskTemplate) :=
      match build_task.args with
      | [] => .ok none
      | arg :: rest =>
        if arg = "build" then
          match rest with
          | arg2 :: _ =>
            if arg2 = "run" then
              .ok (some { label := "zig build", command := "zig",
                          args := ["build"], env := env, cwd := cwd })
            else .ok none
          | [] => .ok none
        else if arg = "test" then
          match get_test_exe_path denv with
          | none => .panicked
          | some test_exe_path =>
            let args0 : List String :=
              match denv.os with
              | .windows =>
                "test" :: ((build_task.args.drop 1).map
                  (fun s => "'" ++ s ++ "'"))
              | _ => build_task.args
            let args1 := args0 ++ ["--test-no-exec"]
            let args2 := args1 ++
              [match denv.os with
               | .windows => "-femit-bin='" ++ test_exe_path ++ ".exe'"
               | _ => "-femit-bin=" ++ test_exe_path]
            .ok (some { label := "zig test --test-no-exec", command := "zig",
                        args := args2, env := env, cwd := cwd })
        else .ok none
    match template? with
    | .panicked => .panicked
    | .ok none => .ok none
    | .ok (some template) =>
      .ok (some
        { adapter := debug_adapter_name
          label := resolved_label
          config := "null"
          tcpConnection := none
          build := some (.template
            { template := template, locatorName := some locator_name }) })

/-- `ZigExtension::run_dap_locator`. -/
def run_dap_locator (denv : DapEnv) (_locator_name : String)
    (build_task : TaskTemplate) : PanicOr (Except String DebugRequest) :=
  match build_task.args with
  | arg :: _ =>
    if arg = "build" then
      match get_project_name build_task with
      | none => .ok (.error "Failed to get project name")
      | some exec =>
        .ok (.ok (.launch
          { program := "zig-out/bin/" ++ exec
            cwd := build_task.cwd
            args := []
            envs := build_task.env }))
    else if arg = "test" then
      match get_test_exe_path denv with
      | none => .panicked
      | some program =>
        .ok (.ok (.launch
          { program := program
            cwd := build_task.cwd
            args := []
            envs := build_task.env }))
    else .ok (.error "Unsupported build task")
  | [] => .ok (.error "Unsupported build task")

/-! ## Language-server binary resolution (`ZigExtension::language_server_binary`) -/

/-- `zed::LanguageServerInstallationStatus` (the variants the source emits). -/
inductive Status
  | checkingForUpdate
  | downloading
  deriving DecidableEq, Repr

/-- `zed::DownloadedFileType` (the variants the source selects). -/
inductive DownloadedFileType
  | gzipTar
  | zip
  deriving DecidableEq, Repr

/-- The `binary` part of `zed::settings::LspSettings`. -/
structure BinarySettings where
  path : Option String
  arguments : Option (List String)
  deriving DecidableEq, Repr

/-- `zed::settings::LspSettings` (the field the resolution path reads). -/
structure ZlsSettings where
  binary : Option BinarySettings
  deriving DecidableEq, Repr

/-- `zed::GithubRelease` (the field the source reads). -/
structure GithubRelease where
  version : String
  deriving DecidableEq, Repr

/-- A directory entry as produced by `fs::read_dir(".")`. -/
structure DirEntry where
  fileName : String
  deriving DecidableEq, Repr

/-- `ZlsBinary`. -/
structure ZlsBinary where
  path : String
  args : Option (List String)
  environment : Option (List (String × String))
  deriving DecidableEq, Repr

/-- Observable side effects of `language_server_binary`, in program order:
status notifications, the GitHub release lookup (network), `fs::metadata`
existence checks, the download (network), chmod, and directory
listing/removal. -/
inductive Effect
  | setStatus (s : Status)
  | fetchLatestRelease
  | statFile (path : String)
  | downloadFile (url : String) (dir : String) (fileType : DownloadedFileType)
  | makeFileExecutable (path : String)
  | readDir
  | removeDirAll (name : String)
  deriving DecidableEq, Repr

/-- Environment of one `language_server_binary` call: the platform and the
outcome each host/OS collaborator would produce if invoked.
`removeDirResult` gives the outcome of `fs::remove_dir_all` per entry name;
the source discards it (`.ok()`), so no definition below reads it. -/
structure Env where
  platform : Os
  arch : Arch
  shellEnv : List (String × String)
  lspSettings : Except String ZlsSettings
  whichZls : Option String
  fileIsFile : String → Bool
  latestRelease : Except String GithubRelease
  downloadResult : Except String Unit
  makeExecutableResult : Except String Unit
  readDirResult : Except String (List (Except String DirEntry))
  removeDirResult : String → Except String Unit

/-- Lines 26–29: shell env on Mac/Linux, none on Windows. -/
def environmentFor (env : Env) : Option (List (String × String)) :=
  match env.platform with
  | .mac | .linux => some env.shellEnv
  | .windows => none

/-- Lines 77–81: architecture token. -/
def archToken : Arch → String
  | .aarch64 => "aarch64"
  | .x86 => "x86"
  | .x8664 => "x86_64"

/-- Lines 83–87: OS token. -/
def osToken : Os → String
  | .mac => "macos"
  | .linux => "linux"
  | .windows => "windows"

/-- Lines 89–92: archive extension. -/
def extToken : Os → String
  | .mac | .linux => "tar.gz"
  | .windows => "zip"

/-- Lines 112–115: extraction kind passed to `zed::download_file`. -/
def downloadedFileTypeFor : Os → DownloadedFileType
  | .mac | .linux => .gzipTar
  | .windows => .zip

/-- Line 94: `format!("zls-{}-{}-{}.{}", arch, os, release.version, extension)`. -/
def assetNameFor (arch : Arch) (os : Os) (version : String) : String :=
  "zls-" ++ archToken arch ++ "-" ++ osToken os ++ "-" ++ version ++ "."
    ++ extToken os

/-- Line 95: `format!("https://builds.zigtools.org/{}", asset_name)`. -/
def downloadUrlFor (arch : Arch) (os : Os) (version : String) : String :=
  "https://builds.zigtools.org/" ++ assetNameFor arch os version

/-- Line 97: `format!("zls-{}", release.version)`. -/
def versionDirFor (version : String) : String := "zls-" ++ version

/-- Lines 98–101: binary path inside the version directory. -/
def binaryPathFor (os : Os) (version : String) : String :=
  match os with
  | .mac | .linux => versionDirFor version ++ "/zls"
  | .windows => versionDirFor version ++ "/zls.exe"

/-- Lines 123–128: the stale-sibling cleanup loop.  Returns the loop's
outcome (an entry that fails to load aborts the call with an error, stopping
the loop) and the removal attempts made; the outcome of each
`fs::remove_dir_all` is discarded by the source (`.ok()`). -/
def cleanupEntries (versionDir : String) :
    List (Except String DirEntry) → Except String Unit × List Effect
  | [] => (.ok (), [])
  | .error e :: _ => (.error ("failed to load directory entry " ++ e), [])
  | .ok entry :: rest =>
    let here : List Effect :=
      if entry.fileName ≠ versionDir then [.removeDirAll entry.fileName]
      else []
    let tail := cleanupEntries versionDir rest
    (tail.1, here ++ tail.2)

/-- Lines 62–129 without the final cache write: status notification, release
lookup, URL construction, existence check, and the download/chmod/cleanup
sequence.  Returns the result and the effect trace. -/
def fetchCore (env : Env) (args : Option (List String))
    (environment : Option (List (String × String))) :
    Except String ZlsBinary × List Effect :=
  let e0 : List Effect := [.setStatus .checkingForUpdate, .fetchLatestRelease]
  match env.latestRelease with
  | .error e => (.error e, e0)
  | .ok release =>
    let downloadUrl := downloadUrlFor env.arch env.platform release.version
    let versionDir := versionDirFor release.version
    let binaryPath := binaryPathFor env.platform release.version
    let e1 := e0 ++ [Effect.statFile binaryPath]
    if env.fileIsFile binaryPath then
      (.ok ⟨binaryPath, args, environment⟩, e1)
    else
      let e2 := e1 ++ [Effect.setStatus .downloading,
        Effect.downloadFile downloadUrl versionDir
          (downloadedFileTypeFor env.platform)]
      match env.downloadResult with
      | .error e => (.error ("failed to download file: " ++ e), e2)
      | .ok _ =>
        let e3 := e2 ++ [Effect.makeFileExecutable binaryPath]
        match env.makeExecutableResult with
        | .error e => (.error e, e3)
        | .ok _ =>
          let e4 := e3 ++ [Effect.readDir]
          match env.readDirResult with
          | .error e => (.error ("failed to list working directory " ++ e), e4)
          | .ok entries =>
            let tail := cleanupEntries versionDir entries
            match tail.1 with
            | .error e => (.error e, e4 ++ tail.2)
            | .ok _ => (.ok ⟨binaryPath, args, environment⟩, e4 ++ tail.2)

/-- Lines 62–136: `fetchCore` plus the cache write at line 131, which is
reached exactly on success (every failure propagates out with `?` before it);
on failure `self.cached_binary_path` keeps its previous value. -/
def fetchStage (env : Env) (args : Option (List String))
    (environment : Option (List (String × String))) (cached : Option String) :
    Except String ZlsBinary × Option String × List Effect :=
  let c := fetchCore env args environment
  (c.1,
   match c.1 with
   | .ok b => some b.path
   | .error _ => cached,
   c.2)

/-- Lines 52–60: the cache check (`fs::metadata(path).is_file()`) followed by
the fetch path on a miss. -/
def cacheStage (env : Env) (args : Option (List String))
    (environment : Option (List (String × String))) (cached : Option String) :
    Except String ZlsBinary × Option String × List Effect :=
  match cached with
  | some path =>
    if env.fileIsFile path then
      (.ok ⟨path, args, environment⟩, cached, [Effect.statFile path])
    else
      let f := fetchStage env args environment cached
      (f.1, f.2.1, Effect.statFile path :: f.2.2)
  | none => fetchStage env args environment cached

/-- Lines 44–50: `worktree.which("zls")`. -/
def whichStage (env : Env) (args : Option (List String))
    (environment : Option (List (String × String))) (cached : Option String) :
    Except String ZlsBinary × Option String × List Effect :=
  match env.whichZls with
  | some path => (.ok ⟨path, args, environment⟩, cached, [])
  | none => cacheStage env args environment cached

/-- `ZigExtension::language_server_binary`, lines 18–137.  Takes the
environment and the current `self.cached_binary_path`; returns the result,
the new `self.cached_binary_path`, and the ordered effect trace. -/
def language_server_binary (env : Env) (cached : Option String) :
    Except String ZlsBinary × Option String × List Effect :=
  let environment := environmentFor env
  match env.lspSettings with
  | .ok settings =>
    match settings.binary with
    | some binarySettings =>
      match binarySettings.path with
      | some path =>
        (.ok ⟨path, binarySettings.arguments, environment⟩, cached, [])
      | none => whichStage env binarySettings.arguments environment cached
    | none => whichStage env none environment cached
  | .error _ => whichStage env none environment cached

/-- A concrete environment used to instantiate the theorems below: Linux on
x86_64, no settings override, no `zls` on PATH, an empty filesystem, release
`0.13.0` available, and all download-path collaborators succeeding. -/
def baseEnv : Env where
  platform := .linux
  arch := .x8664
  shellEnv := [("PATH", "/usr/bin")]
  lspSettings := .ok { binary := none }
  whichZls := none
  fileIsFile := fun _ => false
  latestRelease := .ok { version := "0.13.0" }
  downloadResult := .ok ()
  makeExecutableResult := .ok ()
  readDirResult := .ok [.ok { fileName := "zls-0.13.0" },
                        .ok { fileName := "zls-0.12.0" }]
  removeDirResult := fun _ => .ok ()

/-! ## Helper lemmas -/

theorem run_dap_locator_build_launch (denv : DapEnv) (ln : String)
    (task : TaskTemplate) (rest : List String) (c name : String)
    (hargs : task.args = "build" :: rest) (hcwd : task.cwd = some c)
    (hname : pathFileName c = some name) :
    run_dap_locator denv ln task =
      .ok (.ok (.launch { program := "zig-out/bin/" ++ name, cwd := some c,
                          args := [], envs := task.env })) := by
  obtain ⟨l, cmd, args, env, cwd⟩ := task
  simp only at hargs hcwd
  subst hargs; subst hcwd
  simp [run_dap_locator, get_project_name, hname]

theorem run_dap_locator_test_launch (denv : DapEnv) (ln : String)
    (task : TaskTemplate) (rest : List String) (d : String)
    (hargs : task.args = "test" :: rest) (hdir : denv.currentDir = some d) :
    run_dap_locator denv ln task =
      .ok (.ok (.launch { program := pathJoin d ZIG_TEST_EXE_NAME,
                          cwd := task.cwd, args := [], envs := task.env })) := by
  obtain ⟨l, cmd, args, env, cwd⟩ := task
  obtain ⟨os, cdir⟩ := denv
  simp only at hargs hdir
  subst hargs; subst hdir
  simp [run_dap_locator, get_test_exe_path]

theorem create_scenario_non_zig (denv : DapEnv) (ln : String)
    (task : TaskTemplate) (rl da : String) (h : task.command ≠ "zig") :
    dap_locator_create_scenario denv ln task rl da = .ok none := by
  simp [dap_locator_create_scenario, h]

/-! ## Claim theorems: task translation -/

/-- C4: the claim says no operation aborts the process, in particular not when
the current working directory cannot be determined.  The code violates this:
both DAP operations call `.unwrap()` on `get_test_exe_path()`, which is `None`
exactly when `std::env::current_dir()` fails, so a `test` task aborts the
process in that state.  `get_test_exe_path` itself returns `Option` precisely
to absorb that failure, so the unwrap at the call sites contradicts the
function's own design (and the spec): a code bug.  This theorem evaluates both
operations at the failing input. -/
theorem c4_unwrap_aborts_on_missing_cwd :
    dap_locator_create_scenario ⟨Os.linux, none⟩ "loc"
      { label := "t", command := "zig", args := ["test"], env := [],
        cwd := none } "resolved" "adapter" = .panicked ∧
    run_dap_locator ⟨Os.linux, none⟩ "loc"
      { label := "t", command := "zig", args := ["test"], env := [],
        cwd := none } = .panicked := by
  exact ⟨rfl, rfl⟩

/-- C5: the three literal translations.  A `zig build run` task yields the
`zig build` build template with the task's env and cwd; a `zig test foo.zig`
task on a non-Windows platform (here Linux, current dir `/cwd`) yields a
template whose args end in `--test-no-exec`, `-femit-bin=/cwd/zig_test`; a
`zig fmt` task yields no scenario. -/
theorem c5_literal_translations :
    dap_locator_create_scenario ⟨Os.linux, some "/cwd"⟩ "zig"
      { label := "t", command := "zig", args := ["build", "run"],
        env := [("A", "B")], cwd := some "/proj" } "resolved" "adapter"
      = .ok (some
        { adapter := "adapter", label := "resolved", config := "null",
          tcpConnection := none
          build := some (.template
            { template := { label := "zig build", command := "zig",
                            args := ["build"], env := [("A", "B")],
                            cwd := some "/proj" },
              locatorName := some "zig" }) }) ∧
    dap_locator_create_scenario ⟨Os.linux, some "/cwd"⟩ "zig"
      { label := "t", command := "zig", args := ["test", "foo.zig"],
        env := [], cwd := some "/proj" } "resolved" "adapter"
      = .ok (some
        { adapter := "adapter", label := "resolved", config := "null",
          tcpConnection := none
          build := some (.template
            { template := { label := "zig test --test-no-exec",
                            command := "zig",
                            args := ["test", "foo.zig", "--test-no-exec",
                                     "-femit-bin=/cwd/zig_test"],
                            env := [], cwd := some "/proj" },
              locatorName := some "zig" }) }) ∧
    dap_locator_create_scenario ⟨Os.linux, some "/cwd"⟩ "zig"
      { label := "t", command := "zig", args := ["fmt"], env := [],
        cwd := none } "resolved" "adapter" = .ok none := by
  exact ⟨rfl, rfl, rfl⟩

/-- C6 counterexample: a build task whose working directory is set to `"/"`
(which has no final path segment) makes `run_dap_locator` return the error
`"Failed to get project name"`, not a launch request — refuting the claim
that every build task with a set working directory yields a launch request. -/
theorem c6_counterexample_root_cwd :
    run_dap_locator ⟨Os.linux, some "/x"⟩ "loc"
      { label := "t", command := "zig", args := ["build"], env := [],
        cwd := some "/" }
      = .ok (.error "Failed to get project name") := by
  rfl

/-- C6 (amended): for every build task whose first argument is `"build"` and
whose working directory is set *and has a final path segment* (the
`Path::file_name` of the cwd exists), `run_dap_locator` returns a launch
request with program `zig-out/bin/<final segment>`. -/
theorem c6_project_name_launch (denv : DapEnv) (ln : String)
    (task : TaskTemplate) (rest : List String) (c name : String)
    (hargs : task.args = "build" :: rest) (hcwd : task.cwd = some c)
    (hname : pathFileName c = some name) :
    run_dap_locator denv ln task =
      .ok (.ok (.launch { program := "zig-out/bin/" ++ name, cwd := some c,
                          args := [], envs := task.env })) :=
  run_dap_locator_build_launch denv ln task rest c name hargs hcwd hname

/-- Witness for C6 at the spec's own example: cwd `/home/u/myproj` yields
program `zig-out/bin/myproj`. -/
theorem c6_project_name_launch_witness :
    run_dap_locator ⟨Os.linux, some "/x"⟩ "loc"
      { label := "t", command := "zig", args := ["build"], env := [("K", "V")],
        cwd := some "/home/u/myproj" }
      = .ok (.ok (.launch { program := "zig-out/bin/myproj",
                            cwd := some "/home/u/myproj", args := [],
                            envs := [("K", "V")] })) :=
  c6_project_name_launch ⟨Os.linux, some "/x"⟩ "loc"
    { label := "t", command := "zig", args := ["build"], env := [("K", "V")],
      cwd := some "/home/u/myproj" } [] "/home/u/myproj" "myproj"
    rfl rfl (by decide)

/-- C7: for every task whose first argument is neither `"build"` nor `"test"`
(including a task with no arguments at all), `dap_locator_create_scenario`
returns no result (`none`, not an error) while `run_dap_locator` returns the
typed error `"Unsupported build task"`. -/
theorem c7_unsupported_task (denv : DapEnv) (ln rl da : String)
    (task : TaskTemplate)
    (h : ∀ a, task.args.head? = some a → a ≠ "build" ∧ a ≠ "test") :
    run_dap_locator denv ln task = .ok (.error "Unsupported build task") ∧
    dap_locator_create_scenario denv ln task rl da = .ok none := by
  obtain ⟨l, cmd, args, env, cwd⟩ := task
  match args with
  | [] =>
    constructor
    · rfl
    · by_cases hc : cmd = "zig" <;>
        simp [dap_locator_create_scenario, hc]
  | a :: rest =>
    obtain ⟨hb, ht⟩ := h a rfl
    constructor
    · simp [run_dap_locator, hb, ht]
    · by_cases hc : cmd = "zig" <;>
        simp [dap_locator_create_scenario, hc, hb, ht]

/-- Witness for C7 at args `["doc"]`. -/
theorem c7_unsupported_task_witness :
    run_dap_locator ⟨Os.linux, none⟩ "loc"
      { label := "t", command := "zig", args := ["doc"], env := [],
        cwd := none } = .ok (.error "Unsupported build task") ∧
    dap_locator_create_scenario ⟨Os.linux, none⟩ "loc"
      { label := "t", command := "zig", args := ["doc"], env := [],
        cwd := none } "rl" "da" = .ok none :=
  c7_unsupported_task ⟨Os.linux, none⟩ "loc" "rl" "da"
    { label := "t", command := "zig", args := ["doc"], env := [], cwd := none }
    (by intro a ha; simp at ha; subst ha; exact ⟨by decide, by decide⟩)

/-- C10 counterexample: the claim that `run_dap_locator` returns a launch
request for *every* task whose first argument is `"build"` with a set cwd, or
`"test"`, regardless of the command, fails: with cwd `"/"` the build case
returns the error `"Failed to get project name"`, and when the current
working directory cannot be determined the test case aborts via unwrap. -/
theorem c10_counterexample :
    run_dap_locator ⟨Os.linux, some "/x"⟩ "loc"
      { label := "t", command := "cargo", args := ["build"], env := [],
        cwd := some "/" } = .ok (.error "Failed to get project name") ∧
    run_dap_locator ⟨Os.linux, none⟩ "loc"
      { label := "t", command := "cargo", args := ["test"], env := [],
        cwd := some "/p" } = .panicked := by
  exact ⟨rfl, rfl⟩

/-- C10 (amended): `run_dap_locator` never inspects the task's command — its
result is invariant under replacing the command; a `"build"` task whose cwd
has a final path segment, and a `"test"` task when the current directory is
determinable, yield launch requests regardless of the command; and
`dap_locator_create_scenario` returns no scenario whenever the command is not
`"zig"`, regardless of the arguments. -/
theorem c10_command_independence :
    (∀ (denv : DapEnv) (ln c : String) (task : TaskTemplate),
      run_dap_locator denv ln { task with command := c } =
        run_dap_locator denv ln task) ∧
    (∀ (denv : DapEnv) (ln : String) (task : TaskTemplate)
      (rest : List String) (c name : String),
      task.args = "build" :: rest → task.cwd = some c →
      pathFileName c = some name →
      run_dap_locator denv ln task =
        .ok (.ok (.launch { program := "zig-out/bin/" ++ name, cwd := some c,
                            args := [], envs := task.env }))) ∧
    (∀ (denv : DapEnv) (ln : String) (task : TaskTemplate)
      (rest : List String) (d : String),
      task.args = "test" :: rest → denv.currentDir = some d →
      run_dap_locator denv ln task =
        .ok (.ok (.launch { program := pathJoin d ZIG_TEST_EXE_NAME,
                            cwd := task.cwd, args := [],
                            envs := task.env }))) ∧
    (∀ (denv : DapEnv) (ln : String) (task : TaskTemplate) (rl da : String),
      task.command ≠ "zig" →
      dap_locator_create_scenario denv ln task rl da = .ok none) := by
  refine ⟨fun _ _ _ _ => rfl, ?_, ?_, ?_⟩
  · intro denv ln task rest c name hargs hcwd hname
    exact run_dap_locator_build_launch denv ln task rest c name hargs hcwd hname
  · intro denv ln task rest d hargs hdir
    exact run_dap_locator_test_launch denv ln task rest d hargs hdir
  · intro denv ln task rl da h
    exact create_scenario_non_zig denv ln task rl da h

/-- Witness for C10 at concrete non-`"zig"` commands. -/
theorem c10_command_independence_witness :
    run_dap_locator ⟨Os.linux, some "/x"⟩ "loc"
      { label := "t", command := "notzig", args := ["build"], env := [],
        cwd := some "/a/b" }
      = .ok (.ok (.launch { program := "zig-out/bin/b", cwd := some "/a/b",
                            args := [], envs := [] })) ∧
    run_dap_locator ⟨Os.mac, some "/d"⟩ "loc"
      { label := "t", command := "notzig", args := ["test", "x"], env := [],
        cwd := none }
      = .ok (.ok (.launch { program := "/d/zig_test", cwd := none, args := [],
                            envs := [] })) ∧
    dap_locator_create_scenario ⟨Os.linux, some "/x"⟩ "loc"
      { label := "t", command := "notzig", args := ["build", "run"], env := [],
        cwd := none } "rl" "da" = .ok none := by
  refine ⟨?_, ?_, ?_⟩
  · exact c10_command_independence.2.1 ⟨Os.linux, some "/x"⟩ "loc"
      { label := "t", command := "notzig", args := ["build"], env := [],
        cwd := some "/a/b" } [] "/a/b" "b" rfl rfl (by decide)
  · exact c10_command_independence.2.2.1 ⟨Os.mac, some "/d"⟩ "loc"
      { label := "t", command := "notzig", args := ["test", "x"], env := [],
        cwd := none } ["x"] "/d" rfl rfl
  · exact c10_command_independence.2.2.2 ⟨Os.linux, some "/x"⟩ "loc"
      { label := "t", command := "notzig", args := ["build", "run"], env := [],
        cwd := none } "rl" "da" (by decide)

/-! ## Claim theorems: binary resolution -/

/-- Associativity regrouping used for the download-URL equations. -/
theorem append_regroup (a b c d v : String) :
    a ++ (b ++ v ++ c ++ d) = a ++ b ++ v ++ (c ++ d) := by
  simp [String.append_assoc]

/-- When every directory entry loads successfully, the cleanup loop succeeds
and attempts to remove every entry whose name differs from the version
directory. -/
theorem cleanupEntries_all_ok (vd : String)
    (entries : List (Except String DirEntry))
    (hok : ∀ x ∈ entries, ∃ d, x = Except.ok d) :
    (cleanupEntries vd entries).1 = .ok () ∧
    ∀ d : DirEntry, Except.ok d ∈ entries → d.fileName ≠ vd →
      Effect.removeDirAll d.fileName ∈ (cleanupEntries vd entries).2 := by
  induction entries with
  | nil => exact ⟨rfl, by intro d hd; cases hd⟩
  | cons x rest ih =>
    obtain ⟨d, rfl⟩ := hok x (List.mem_cons_self x rest)
    have ihr := ih (fun y hy => hok y (List.mem_cons_of_mem _ hy))
    refine ⟨by simpa [cleanupEntries] using ihr.1, ?_⟩
    intro d2 hd2 hne
    rcases List.mem_cons.mp hd2 with h | h
    · obtain rfl : d2 = d := by injection h
      simp [cleanupEntries, hne]
    · have hmem := ihr.2 d2 h hne
      by_cases hd : d.fileName = vd <;>
        simp [cleanupEntries, hd, hmem]

/-- C1: when the worktree LSP settings specify an explicit binary path,
`language_server_binary` returns that path with the configured arguments,
performs no effect at all (no status notification, no release lookup, no
download, no filesystem stat), and passes the cache field through untouched —
for every cache state and every state of the remaining collaborators. -/
theorem c1_explicit_binary_override (env : Env) (cached : Option String)
    (settings : ZlsSettings) (binarySettings : BinarySettings) (p : String)
    (hs : env.lspSettings = .ok settings)
    (hb : settings.binary = some binarySettings)
    (hp : binarySettings.path = some p) :
    language_server_binary env cached =
      (.ok ⟨p, binarySettings.arguments, environmentFor env⟩, cached, []) := by
  simp [language_server_binary, hs, hb, hp]

/-- Witness for C1: explicit path `/custom/zls` with extra argument, a stale
cache entry, and a release available — the explicit path is returned with no
effects. -/
theorem c1_explicit_binary_override_witness :
    language_server_binary
      { baseEnv with lspSettings := Except.ok (ZlsSettings.mk (some
          (BinarySettings.mk (some "/custom/zls") (some ["--flag"])))) }
      (some "/stale")
      = (.ok ⟨"/custom/zls", some ["--flag"], some [("PATH", "/usr/bin")]⟩,
         some "/stale", []) :=
  c1_explicit_binary_override _ (some "/stale")
    { binary := some { path := some "/custom/zls",
                       arguments := some ["--flag"] } }
    { path := some "/custom/zls", arguments := some ["--flag"] }
    "/custom/zls" rfl rfl rfl

/-- C2: in the download path (lines 62–129 of `language_server_binary`,
embedded as `fetchCore`), when the computed binary path already exists as a
regular file, the result is that binary and the effect trace is exactly the
status notification, the release lookup, and the existence check: the
downloading notification, the download, the chmod, and the sibling cleanup
are all skipped. -/
theorem c2_existing_binary_skips_download (env : Env)
    (args : Option (List String))
    (environment : Option (List (String × String))) (rel : GithubRelease)
    (hrel : env.latestRelease = .ok rel)
    (hfile : env.fileIsFile (binaryPathFor env.platform rel.version) = true) :
    fetchCore env args environment =
      (.ok ⟨binaryPathFor env.platform rel.version, args, environment⟩,
       [.setStatus .checkingForUpdate, .fetchLatestRelease,
        .statFile (binaryPathFor env.platform rel.version)]) := by
  simp [fetchCore, hrel, hfile]

/-- Witness for C2: release `0.13.0` already extracted on disk — resolution
returns `zls-0.13.0/zls` with no download effects. -/
theorem c2_existing_binary_skips_download_witness :
    fetchCore { baseEnv with fileIsFile := fun p => p = "zls-0.13.0/zls" }
      none none
      = (.ok ⟨"zls-0.13.0/zls", none, none⟩,
         [.setStatus .checkingForUpdate, .fetchLatestRelease,
          .statFile "zls-0.13.0/zls"]) :=
  c2_existing_binary_skips_download _ none none { version := "0.13.0" }
    rfl (by decide)

/-- C3: a cache entry pointing at a path that is not a regular file is
treated exactly like a cold cache: the cache stage (lines 52–60 and onward)
produces the same result as with no cache entry, and the same effect trace
except for the one existence check on the stale path.  In particular the
stale entry never produces an error of its own. -/
theorem c3_stale_cache_cold_start (env : Env) (args : Option (List String))
    (environment : Option (List (String × String))) (p : String)
    (hstale : env.fileIsFile p = false) :
    (cacheStage env args environment (some p)).1 =
      (cacheStage env args environment none).1 ∧
    (cacheStage env args environment (some p)).2.2 =
      Effect.statFile p :: (cacheStage env args environment none).2.2 := by
  constructor <;> simp [cacheStage, hstale, fetchStage]

/-- Witness for C3 with the stale path `/stale` in `baseEnv`. -/
theorem c3_stale_cache_cold_start_witness :
    (cacheStage baseEnv none none (some "/stale")).1 =
      (cacheStage baseEnv none none none).1 ∧
    (cacheStage baseEnv none none (some "/stale")).2.2 =
      Effect.statFile "/stale" :: (cacheStage baseEnv none none none).2.2 :=
  c3_stale_cache_cold_start baseEnv none none "/stale" rfl

/-- C8 counterexample: a failure *during* the stale-sibling cleanup — a
directory entry that fails to load — does abort the cleanup and does fail the
overall fetch: with entries `[error "io", ok "stale"]` the call returns the
error `failed to load directory entry io` and never attempts to remove the
`"stale"` sibling.  This refutes the claim that *no* failure occurring during
the cleanup (for any sibling) aborts the other removals or fails the fetch;
only the removal step itself is best-effort. -/
theorem c8_counterexample_entry_error :
    (language_server_binary
      { baseEnv with readDirResult := (Except.ok
          [.error "io", .ok (DirEntry.mk "stale")]) } none).1 =
      .error "failed to load directory entry io" ∧
    Effect.removeDirAll "stale" ∉
      (language_server_binary
        { baseEnv with readDirResult := (Except.ok
            [.error "io", .ok (DirEntry.mk "stale")]) } none).2.2 := by
  exact ⟨rfl, by decide⟩

/-- C8 (amended): after a fresh download, `language_server_binary` attempts
to remove every *successfully loaded* entry of the working directory whose
name is not the version directory, and the removal step itself is
best-effort — the outcome of `fs::remove_dir_all` is discarded, so no
removal failure aborts the other siblings or fails the fetch (a failure to
list the directory or to load an entry, by contrast, does surface as an
error). -/
theorem c8_cleanup_best_effort :
    (∀ (env : Env) (args : Option (List String))
      (environment : Option (List (String × String)))
      (r : String → Except String Unit),
      fetchCore { env with removeDirResult := r } args environment =
        fetchCore env args environment) ∧
    (∀ (vd : String) (entries : List (Except String DirEntry)),
      (∀ x ∈ entries, ∃ d, x = Except.ok d) →
      (cleanupEntries vd entries).1 = .ok () ∧
      ∀ d : DirEntry, Except.ok d ∈ entries → d.fileName ≠ vd →
        Effect.removeDirAll d.fileName ∈ (cleanupEntries vd entries).2) := by
  refine ⟨fun _ _ _ _ => rfl, ?_⟩
  intro vd entries hok
  exact cleanupEntries_all_ok vd entries hok

/-- Witness for C8: removal outcomes do not influence `fetchCore`, and with
two well-loaded entries the non-matching sibling `old` is attempted. -/
theorem c8_cleanup_best_effort_witness :
    fetchCore { baseEnv with removeDirResult := fun _ => .error "denied" }
      none none = fetchCore baseEnv none none ∧
    (cleanupEntries "zls-0.13.0"
      [.ok (DirEntry.mk "zls-0.13.0"), .ok (DirEntry.mk "old")]).1 =
      .ok () ∧
    Effect.removeDirAll "old" ∈
      (cleanupEntries "zls-0.13.0"
        [.ok (DirEntry.mk "zls-0.13.0"), .ok (DirEntry.mk "old")]).2 := by
  have hok : ∀ x ∈ ([.ok (DirEntry.mk "zls-0.13.0"),
      .ok (DirEntry.mk "old")] : List (Except String DirEntry)),
      ∃ d : DirEntry, x = Except.ok d := by
    intro x hx
    rcases List.mem_cons.mp hx with h | h
    · exact ⟨_, h⟩
    · rcases List.mem_cons.mp h with h2 | h2
      · exact ⟨_, h2⟩
      · cases h2
  refine ⟨c8_cleanup_best_effort.1 baseEnv none none _, ?_, ?_⟩
  · exact (c8_cleanup_best_effort.2 "zls-0.13.0" _ hok).1
  · exact (c8_cleanup_best_effort.2 "zls-0.13.0" _ hok).2
      (DirEntry.mk "old") (by simp) (by decide)

/-- C9: for every release version and each platform/architecture
combination, the download URL is
`https://builds.zigtools.org/zls-{arch}-{os}-{version}.{ext}` with the
documented tokens (`aarch64`/`x86`/`x86_64`, `macos`/`linux`/`windows`,
`tar.gz` on Mac/Linux and `zip` on Windows), and the extraction kind passed
to the download collaborator is gzip-tar on Mac/Linux and zip on Windows. -/
theorem c9_platform_url_mapping (version : String) :
    downloadUrlFor .aarch64 .mac version =
      "https://builds.zigtools.org/zls-aarch64-macos-" ++ version
        ++ ".tar.gz" ∧
    downloadUrlFor .x86 .mac version =
      "https://builds.zigtools.org/zls-x86-macos-" ++ version ++ ".tar.gz" ∧
    downloadUrlFor .x8664 .mac version =
      "https://builds.zigtools.org/zls-x86_64-macos-" ++ version
        ++ ".tar.gz" ∧
    downloadUrlFor .aarch64 .linux version =
      "https://builds.zigtools.org/zls-aarch64-linux-" ++ version
        ++ ".tar.gz" ∧
    downloadUrlFor .x86 .linux version =
      "https://builds.zigtools.org/zls-x86-linux-" ++ version ++ ".tar.gz" ∧
    downloadUrlFor .x8664 .linux version =
      "https://builds.zigtools.org/zls-x86_64-linux-" ++ version
        ++ ".tar.gz" ∧
    downloadUrlFor .aarch64 .windows version =
      "https://builds.zigtools.org/zls-aarch64-windows-" ++ version
        ++ ".zip" ∧
    downloadUrlFor .x86 .windows version =
      "https://builds.zigtools.org/zls-x86-windows-" ++ version ++ ".zip" ∧
    downloadUrlFor .x8664 .windows version =
      "https://builds.zigtools.org/zls-x86_64-windows-" ++ version
        ++ ".zip" ∧
    downloadedFileTypeFor .mac = .gzipTar ∧
    downloadedFileTypeFor .linux = .gzipTar ∧
    downloadedFileTypeFor .windows = .zip := by
  refine ⟨?_, ?_, ?_, ?_, ?_, ?_, ?_, ?_, ?_, rfl, rfl, rfl⟩ <;>
    exact append_regroup "https://builds.zigtools.org/" _ "." _ version

end ZigExt
